import Mathlib

/-!
Shallow embedding of `server/password.py`.

The Python module consists of one module-level constant, one zero-argument
accessor function, and a main guard that prints a diagnostic line:

  ADMIN_PASSWORD = "unicode2024!"

  def get_admin_password():
      return ADMIN_PASSWORD

  if __name__ == "__main__":
      print("Current admin password:", ADMIN_PASSWORD)

We model the interpreter state explicitly: the module's global namespace
(`ModuleState`), the process environment and readable filesystem (inputs
the code could in principle read, but does not), and the standard-output
stream.  A Python call can in principle raise, so the embedded accessor
returns `Except`; the body `return ADMIN_PASSWORD` translates to
`Except.ok`.  `print(a, b)` with default separator and terminator writes
its arguments joined by a single space, followed by a newline.  Executing
the file (`runModule`) binds the global, and only when the file is the
program entry point does the guarded branch perform the diagnostic print;
the process then exits with status 0.
-/

/-- The string literal bound to the module-level global `ADMIN_PASSWORD`
at line 8 of `password.py`. -/
def ADMIN_PASSWORD : String := "unicode2024!"

/-- The module's global namespace: `password.py` defines exactly one
module-level data binding. -/
structure ModuleState where
  ADMIN_PASSWORD : String
deriving DecidableEq

/-- The observable interpreter state: the module globals, the process
environment variables, the readable filesystem, and standard output. -/
structure PyWorld where
  module : ModuleState
  env : List (String × String)
  fs : List (String × String)
  stdout : String
deriving DecidableEq

/-- Python `print` with its default separator and terminator: the
arguments joined by a single space, then a newline. -/
def pyPrint (args : List String) : String :=
  String.intercalate " " args ++ "\n"

/-- Embedding of `get_admin_password` (lines 10-12 of `password.py`): the
body is `return ADMIN_PASSWORD`, a read of the module global.  The call
returns normally (`Except.ok`) with the global's current value and leaves
the whole interpreter state unchanged. -/
def get_admin_password (w : PyWorld) : Except String (String × PyWorld) :=
  Except.ok (w.module.ADMIN_PASSWORD, w)

/-- Outcome of executing the file: the final interpreter state and the
process exit status. -/
structure RunResult where
  world : PyWorld
  exitCode : Nat
deriving DecidableEq

/-- Executing `password.py` in a given environment: the module body binds
`ADMIN_PASSWORD` to the literal, and when the file is run directly as the
entry point (`isMain = true`) the guard at lines 14-15 prints the
diagnostic line; the process then exits with status 0.  The code reads
neither `env` nor `fs`. -/
def runModule (isMain : Bool) (env fs : List (String × String)) : RunResult :=
  let s : ModuleState := { ADMIN_PASSWORD := ADMIN_PASSWORD }
  if isMain then
    { world := { module := s, env := env, fs := fs,
                 stdout := pyPrint ["Current admin password:", s.ADMIN_PASSWORD] },
      exitCode := 0 }
  else
    { world := { module := s, env := env, fs := fs, stdout := "" },
      exitCode := 0 }

/-- The reference interpreter state: the state reached right after
importing `password.py`, with empty environment and filesystem. -/
def refWorld : PyWorld := (runModule false [] []).world

/-- C1: every call to `get_admin_password` returns normally with a string
exactly equal to the configured constant held in the module state, and in
the reference configuration the call returns exactly `"unicode2024!"`. -/
theorem C1_accessor_returns_configured_constant :
    (∀ w : PyWorld, get_admin_password w = Except.ok (w.module.ADMIN_PASSWORD, w)) ∧
    get_admin_password refWorld = Except.ok ("unicode2024!", refWorld) :=
  ⟨fun _ => rfl, rfl⟩

/-- C2: running the file directly writes to standard output a line made of
the label `Current admin password:` followed by the value, and the process
terminates with exit status 0, regardless of environment and filesystem. -/
theorem C2_main_prints_label_and_value :
    ∀ env fs : List (String × String),
      (runModule true env fs).world.stdout
          = "Current admin password:" ++ " " ++ ADMIN_PASSWORD ++ "\n" ∧
      (runModule true env fs).exitCode = 0 :=
  fun _ _ => ⟨rfl, rfl⟩

/-- C3: `get_admin_password` always succeeds: from every interpreter state
it returns normally (`Except.ok`) with a string result and never takes an
error branch. -/
theorem C3_accessor_always_succeeds :
    ∀ w : PyWorld, ∃ v : String, ∃ w' : PyWorld,
      get_admin_password w = Except.ok (v, w') :=
  fun w => ⟨w.module.ADMIN_PASSWORD, w, rfl⟩

/-- C4: any two successive invocations of `get_admin_password` return the
identical value (determinism of the accessor); since the accessor neither
reads mutable input nor writes any state, interleavings by multiple
callers are the same as successive calls. -/
theorem C4_two_invocations_identical (w w1 w2 : PyWorld) (v1 v2 : String)
    (h1 : get_admin_password w = Except.ok (v1, w1))
    (h2 : get_admin_password w1 = Except.ok (v2, w2)) :
    v1 = v2 := by
  simp only [get_admin_password, Except.ok.injEq, Prod.mk.injEq] at h1 h2
  obtain ⟨hv1, hw1⟩ := h1
  obtain ⟨hv2, hw2⟩ := h2
  subst hw1
  exact hv1.symm.trans hv2

/-- Witness for C4: two concrete calls at the reference state both return
`"unicode2024!"`. -/
theorem C4_two_invocations_identical_witness :
    ("unicode2024!" : String) = "unicode2024!" :=
  C4_two_invocations_identical refWorld refWorld refWorld
    "unicode2024!" "unicode2024!" rfl rfl

/-- C5: the value is fixed at module load time as the hardcoded literal
and never mutated: executing the file, in either mode and under any
environment, always yields the module state binding `ADMIN_PASSWORD` to
`"unicode2024!"`, and the only exposed operation, `get_admin_password`,
returns the interpreter state unchanged (no update or delete exists). -/
theorem C5_value_fixed_and_never_mutated :
    (∀ (b : Bool) (env fs : List (String × String)),
        (runModule b env fs).world.module
          = { ADMIN_PASSWORD := "unicode2024!" }) ∧
    (∀ w : PyWorld, get_admin_password w = Except.ok (w.module.ADMIN_PASSWORD, w)) :=
  ⟨fun b _ _ => by cases b <;> rfl, fun _ => rfl⟩

/-- C6: calling `get_admin_password` has no side effects: the interpreter
state returned by the call — module globals including `ADMIN_PASSWORD`,
environment, filesystem, and standard output — is exactly the state
before the call. -/
theorem C6_accessor_is_a_pure_read :
    ∀ w : PyWorld, ∃ v : String, get_admin_password w = Except.ok (v, w) :=
  fun w => ⟨w.module.ADMIN_PASSWORD, rfl⟩

/-- C7: the shipped (reference) configuration value is a non-empty
string: the literal bound to `ADMIN_PASSWORD` has length greater than
zero. -/
theorem C7_shipped_value_nonempty :
    ADMIN_PASSWORD ≠ "" ∧ 0 < ADMIN_PASSWORD.length := by
  decide

/-- C8: importing the module (executing it with `isMain = false`, i.e. not
as the program entry point) writes nothing to standard output: the
diagnostic print is guarded. -/
theorem C8_import_writes_no_output :
    ∀ env fs : List (String × String),
      (runModule false env fs).world.stdout = "" :=
  fun _ _ => rfl

/-- C9: under direct execution the exact content written to standard
output is the line `Current admin password: unicode2024!` followed by a
newline: the label and the value separated by a single space, as `print`
with two arguments emits. -/
theorem C9_exact_stdout_line :
    ∀ env fs : List (String × String),
      (runModule true env fs).world.stdout
        = "Current admin password: unicode2024!\n" :=
  fun _ _ => rfl

/-- C10: the accessor's result is independent of every input source: one
single value is returned after executing the file under any environment
variables, any filesystem content, and either execution mode, so any two
runs in any environments return equal values. -/
theorem C10_result_independent_of_environment :
    ∃ v : String, ∀ (b : Bool) (env fs : List (String × String)),
      get_admin_password (runModule b env fs).world
        = Except.ok (v, (runModule b env fs).world) :=
  ⟨"unicode2024!", fun b _ _ => by cases b <;> rfl⟩
